import Mathlib

/-!
Shallow embedding of the woodpantry-matching service scoring core
(internal/service: Score, scoreRecipe, resolveNames; internal/api handlers;
internal/clients data shapes). Go float64 fields are modelled as exact
rationals; Go maps with absent-key defaults are modelled as total functions;
fallible fetches are modelled as Except values supplied to the orchestrator.
-/

namespace WoodPantry

/-- clients.PantryItem: one pantry inventory record. -/
structure PantryItem where
  id : String
  ingredientID : String
  quantity : ℚ
  unit : String
deriving DecidableEq

/-- clients.RecipeIngredient: one ingredient requirement of a recipe. -/
structure RecipeIngredient where
  id : String
  ingredientID : String
  quantity : ℚ
  unit : String
  isOptional : Bool
deriving DecidableEq

/-- clients.Recipe: a recipe card with its ordered ingredient list. -/
structure Recipe where
  id : String
  title : String
  tags : List String
  prepMinutes : Int
  cookMinutes : Int
  ingredients : List RecipeIngredient
deriving DecidableEq

/-- clients.IngredientSubstitute: one substitute-equivalence record. -/
structure IngredientSubstitute where
  ingredientID : String
  substituteID : String
  ratio : ℚ
  notes : String
deriving DecidableEq

/-- clients.IngredientDetail: dictionary name-lookup result. -/
structure IngredientDetail where
  id : String
  name : String
deriving DecidableEq

/-- service.MissingIngredient: a required ingredient reported missing. -/
structure MissingIngredient where
  ingredientID : String
  name : String
  quantity : ℚ
  unit : String
deriving DecidableEq

/-- service.MatchResult: the scored outcome for one recipe. -/
structure MatchResult where
  recipe : Recipe
  coveragePct : ℚ
  missingIngredients : List MissingIngredient
  canMake : Bool
deriving DecidableEq

/-- The pantry presence set Score builds: insert `true` under the ingredient id
of each item into a map whose absent-key lookup yields `false`. -/
def buildPantrySet (items : List PantryItem) : String → Bool :=
  items.foldl (fun acc item => fun id => if item.ingredientID == id then true else acc id)
    (fun _ => false)

/-- The inner substitute scan of scoreRecipe: walk the substitute list in
order and stop at the first substitute whose id is in the pantry set. -/
def subMatch (pantrySet : String → Bool) : List IngredientSubstitute → Bool
  | [] => false
  | sub :: rest =>
    if pantrySet sub.substituteID then true else subMatch pantrySet rest

/-- The MissingIngredient record scoreRecipe appends for an uncovered
required ingredient: id, quantity and unit copied, name left empty. -/
def mkMissing (ing : RecipeIngredient) : MissingIngredient :=
  { ingredientID := ing.ingredientID, name := "", quantity := ing.quantity,
    unit := ing.unit }

/-- The main loop of scoreRecipe over the required ingredients, returning
the matched count and the missing list in recipe-ingredient order. -/
def scoreRequired (pantrySet : String → Bool)
    (subsMap : String → List IngredientSubstitute) :
    List RecipeIngredient → Nat × List MissingIngredient
  | [] => (0, [])
  | ing :: rest =>
    let res := scoreRequired pantrySet subsMap rest
    if pantrySet ing.ingredientID then
      (res.1 + 1, res.2)
    else if subMatch pantrySet (subsMap ing.ingredientID) then
      (res.1 + 1, res.2)
    else
      (res.1, mkMissing ing :: res.2)

/-- The required (non-optional) ingredients of a recipe, in order. -/
def requiredOf (recipe : Recipe) : List RecipeIngredient :=
  recipe.ingredients.filter fun ing => !ing.isOptional

/-- service.scoreRecipe: coverage score of one recipe against the pantry set. -/
def scoreRecipe (recipe : Recipe) (pantrySet : String → Bool)
    (subsMap : String → List IngredientSubstitute) (maxMissing : Int) : MatchResult :=
  let required := requiredOf recipe
  if required.isEmpty then
    { recipe := recipe, coveragePct := 100, missingIngredients := [], canMake := true }
  else
    let res := scoreRequired pantrySet subsMap required
    { recipe := recipe
      coveragePct := (res.1 : ℚ) / (required.length : ℚ) * 100
      missingIngredients := res.2
      canMake := decide ((res.2.length : Int) ≤ maxMissing) }

/-- The comparison passed to sort.Slice in Score: coverage descending,
ties broken by fewer missing ingredients. -/
def resultLess (a b : MatchResult) : Bool :=
  if a.coveragePct ≠ b.coveragePct then decide (b.coveragePct < a.coveragePct)
  else decide (a.missingIngredients.length < b.missingIngredients.length)

/-- The sort step of Score: results reordered so that no later element is
`resultLess` than an earlier one, as sort.Slice guarantees of its output. -/
def rankResults (results : List MatchResult) : List MatchResult :=
  results.insertionSort fun a b => (!resultLess b a) = true

/-- The filter step of Score: keep only results with canMake set. -/
def filterCanMake (results : List MatchResult) : List MatchResult :=
  results.filter fun r => r.canMake

/-- The rank-and-filter stage of Score: sort, then drop non-makeable results. -/
def rankAndFilter (results : List MatchResult) : List MatchResult :=
  filterCanMake (rankResults results)

/-- The per-id outcome of the name fan-out in resolveNames: an entry lands in
nameMap only when the dictionary fetch succeeds with a non-nil detail. -/
def lookupName (nameFetch : String → Except String (Option IngredientDetail))
    (id : String) : Option String :=
  match nameFetch id with
  | .ok (some detail) => some detail.name
  | _ => none

/-- The write-back step of resolveNames for one record: set the name when
nameMap has an entry for the id, leave the record unchanged otherwise. -/
def applyName (nameFetch : String → Except String (Option IngredientDetail))
    (m : MissingIngredient) : MissingIngredient :=
  match lookupName nameFetch m.ingredientID with
  | some n => { m with name := n }
  | none => m

/-- service.resolveNames: best-effort in-place name enrichment, modelled
functionally; the early return fires when no result has missing ingredients. -/
def resolveNames (nameFetch : String → Except String (Option IngredientDetail))
    (results : List MatchResult) : List MatchResult :=
  if results.all (fun r => r.missingIngredients.isEmpty) then results
  else
    results.map fun r =>
      { r with missingIngredients := r.missingIngredients.map (applyName nameFetch) }

/-- Whether an id is required by some recipe and absent from the pantry set:
the ids Score prefetches substitutes for when allowSubs is set. -/
def requiredMissingID (pantrySet : String → Bool) (recipes : List Recipe)
    (id : String) : Bool :=
  recipes.any fun recipe =>
    recipe.ingredients.any fun ing =>
      !ing.isOptional && ing.ingredientID == id && !pantrySet ing.ingredientID

/-- The substitute map Score builds: a fetch that fails or returns nil leaves
the id absent, and absent keys read as the empty list. -/
def buildSubsMap (allowSubs : Bool) (pantrySet : String → Bool)
    (recipes : List Recipe)
    (subsFetch : String → Except String (Option (List IngredientSubstitute))) :
    String → List IngredientSubstitute :=
  fun id =>
    if allowSubs && requiredMissingID pantrySet recipes id then
      match subsFetch id with
      | .ok (some subs) => subs
      | _ => []
    else []

/-- service.Score: fetch pantry and recipes (fail-fast), build the pantry set
and substitute map, score every recipe, rank, filter, and enrich names. -/
def Score (pantryRes : Except String (List PantryItem))
    (recipesRes : Except String (List Recipe))
    (subsFetch : String → Except String (Option (List IngredientSubstitute)))
    (nameFetch : String → Except String (Option IngredientDetail))
    (allowSubs : Bool) (maxMissing : Int) :
    Except String (List MatchResult) :=
  match pantryRes with
  | .error err => .error ("fetch pantry: " ++ err)
  | .ok pantryItems =>
    match recipesRes with
    | .error err => .error ("fetch recipes: " ++ err)
    | .ok recipes =>
      let pantrySet := buildPantrySet pantryItems
      let subsMap := buildSubsMap allowSubs pantrySet recipes subsFetch
      let results := recipes.map fun recipe =>
        scoreRecipe recipe pantrySet subsMap maxMissing
      .ok (resolveNames nameFetch (rankAndFilter results))

/-- api.handleGetMatches maxMissing handling: absent query param defaults to
0, a parsed negative value is rejected with a 400-style error. -/
def getMatchesMaxMissing : Option Int → Except String Int
  | none => .ok 0
  | some n =>
    if n < 0 then .error "max_missing must be a non-negative integer" else .ok n

/-- api.handlePostMatchQuery maxMissing handling: negative request values are
clamped to 0 before Score is called. -/
def postQueryMaxMissing (maxMissing : Int) : Int :=
  if maxMissing < 0 then 0 else maxMissing

/-- Whether one required ingredient is covered: directly in the pantry set,
or via the first in-pantry substitute in its substitute list. -/
def ingCovered (pantrySet : String → Bool)
    (subsMap : String → List IngredientSubstitute) (ing : RecipeIngredient) : Bool :=
  pantrySet ing.ingredientID || subMatch pantrySet (subsMap ing.ingredientID)

/-! ## Concrete fixtures used by witnesses and counterexamples -/

/-- A required or optional recipe ingredient with a fixed quantity and unit. -/
def mkIng (idv : String) (opt : Bool) : RecipeIngredient :=
  { id := idv, ingredientID := idv, quantity := 2, unit := "g", isOptional := opt }

/-- A pantry item for a given ingredient id and quantity. -/
def mkItem (idv : String) (q : ℚ) : PantryItem :=
  { id := idv, ingredientID := idv, quantity := q, unit := "g" }

/-- A recipe with the given id and ingredient list. -/
def mkRecipe (idv : String) (ings : List RecipeIngredient) : Recipe :=
  { id := idv, title := idv, tags := [], prepMinutes := 5, cookMinutes := 10,
    ingredients := ings }

/-- Fixture pantry: flour at quantity 1 and water at quantity 0. -/
def wPantry : List PantryItem := [mkItem "flour" 1, mkItem "water" 0]

/-- Fixture pantry presence set. -/
def wPantrySet : String → Bool := buildPantrySet wPantry

/-- Fixture recipe: required flour and yeast, optional garlic. -/
def wRecipe : Recipe :=
  mkRecipe "bread" [mkIng "flour" false, mkIng "garlic" true, mkIng "yeast" false]

/-- Fixture recipe whose only ingredient is optional. -/
def wRecipeOpt : Recipe := mkRecipe "salad" [mkIng "garlic" true]

/-- Fixture substitute record: water substitutes for yeast. -/
def wSub : IngredientSubstitute :=
  { ingredientID := "yeast", substituteID := "water", ratio := 2, notes := "wild" }

/-- Fixture substitute map: yeast has the one substitute, nothing else does. -/
def wSubsMap : String → List IngredientSubstitute :=
  fun id => if id = "yeast" then [wSub] else []

/-- Fixture substitute fetch that always reports no data. -/
def wSubsFetch : String → Except String (Option (List IngredientSubstitute)) :=
  fun _ => .ok none

/-- Fixture name fetch that always reports not-found. -/
def wNameFetch : String → Except String (Option IngredientDetail) :=
  fun _ => .ok none

/-- Fixture name fetch that resolves yeast and fails on everything else. -/
def wNameFetch2 : String → Except String (Option IngredientDetail) :=
  fun id =>
    if id = "yeast" then .ok (some { id := "yeast", name := "Yeast" })
    else .error "dictionary service returned 500"

/-- Fixture result list with one missing ingredient, for the frame claim. -/
def wResults : List MatchResult :=
  [{ recipe := wRecipe, coveragePct := 50,
     missingIngredients := [{ ingredientID := "yeast", name := "", quantity := 2,
                              unit := "g" }],
     canMake := true }]

/-- Fixture pantry for the clamping counterexample: the single ingredient a. -/
def cPantry : List PantryItem := [mkItem "a" 1]

/-- Fixture catalog for the clamping counterexample: one recipe requiring a. -/
def cRecipes : List Recipe := [mkRecipe "r" [mkIng "a" false]]

deriving instance DecidableEq for Except

/-! ## Characterization lemmas shared by the claim theorems -/

/-- The substitute scan is existence of an in-pantry substitute. -/
lemma subMatch_eq_any (pantrySet : String → Bool)
    (subs : List IngredientSubstitute) :
    subMatch pantrySet subs = subs.any (fun sub => pantrySet sub.substituteID) := by
  induction subs with
  | nil => rfl
  | cons sub rest ih =>
    by_cases h : pantrySet sub.substituteID <;>
      simp [subMatch, h, ih]

/-- The scoring loop computes the covered count and the uncovered records. -/
lemma scoreRequired_eq (pantrySet : String → Bool)
    (subsMap : String → List IngredientSubstitute) (l : List RecipeIngredient) :
    scoreRequired pantrySet subsMap l =
      ((l.filter (ingCovered pantrySet subsMap)).length,
       (l.filter (fun ing => !ingCovered pantrySet subsMap ing)).map mkMissing) := by
  induction l with
  | nil => rfl
  | cons ing rest ih =>
    by_cases h1 : pantrySet ing.ingredientID
    · simp [scoreRequired, ih, List.filter_cons, ingCovered, h1]
    · by_cases h2 : subMatch pantrySet (subsMap ing.ingredientID)
      · simp [scoreRequired, ih, List.filter_cons, ingCovered, h1, h2]
      · simp [scoreRequired, ih, List.filter_cons, ingCovered, h1, h2]

/-- Membership in the built pantry set is existence of a pantry item with
that ingredient id; quantity plays no role. -/
lemma buildPantrySet_eq_any (items : List PantryItem) (id : String) :
    buildPantrySet items id = items.any fun item => item.ingredientID == id := by
  suffices h : ∀ acc : String → Bool,
      (items.foldl
        (fun acc item => fun i => if item.ingredientID == i then true else acc i) acc) id
        = (acc id || items.any fun item => item.ingredientID == id) by
    simpa [buildPantrySet] using h (fun _ => false)
  induction items with
  | nil => intro acc; simp
  | cons item rest ih =>
    intro acc
    rw [List.foldl_cons, ih]
    by_cases h : item.ingredientID == id <;> simp [h]

/-- Covered means: in the pantry, or some listed substitute is in the pantry. -/
lemma ingCovered_eq (pantrySet : String → Bool)
    (subsMap : String → List IngredientSubstitute) (ing : RecipeIngredient) :
    ingCovered pantrySet subsMap ing =
      (pantrySet ing.ingredientID ||
        (subsMap ing.ingredientID).any fun sub => pantrySet sub.substituteID) := by
  simp [ingCovered, subMatch_eq_any]

/-- Uncovered means: not in the pantry and no listed substitute is either. -/
lemma not_ingCovered_eq (pantrySet : String → Bool)
    (subsMap : String → List IngredientSubstitute) (ing : RecipeIngredient) :
    (!ingCovered pantrySet subsMap ing) =
      (!pantrySet ing.ingredientID &&
        !(subsMap ing.ingredientID).any fun sub => pantrySet sub.substituteID) := by
  simp [ingCovered, subMatch_eq_any]

/-- The scoring loop depends on the substitute map only through the
substitute scan of each ingredient. -/
lemma scoreRequired_congr (pantrySet : String → Bool)
    (subsMap subsMap' : String → List IngredientSubstitute)
    (l : List RecipeIngredient)
    (h : ∀ ing ∈ l,
      subMatch pantrySet (subsMap ing.ingredientID) =
        subMatch pantrySet (subsMap' ing.ingredientID)) :
    scoreRequired pantrySet subsMap l = scoreRequired pantrySet subsMap' l := by
  induction l with
  | nil => rfl
  | cons ing rest ih =>
    have h1 := h ing (List.mem_cons_self ing rest)
    have h2 := ih fun i hi => h i (List.mem_cons_of_mem ing hi)
    simp only [scoreRequired, h1, h2]

/-- scoreRecipe depends on the substitute map only through the substitute
scan of each ingredient id. -/
lemma scoreRecipe_congr (recipe : Recipe) (pantrySet : String → Bool)
    (subsMap subsMap' : String → List IngredientSubstitute) (maxMissing : Int)
    (h : ∀ id, subMatch pantrySet (subsMap id) = subMatch pantrySet (subsMap' id)) :
    scoreRecipe recipe pantrySet subsMap maxMissing =
      scoreRecipe recipe pantrySet subsMap' maxMissing := by
  simp only [scoreRecipe,
    scoreRequired_congr pantrySet subsMap subsMap' (requiredOf recipe)
      fun ing _ => h ing.ingredientID]

/-! ## Claim theorems -/

/-- Claim C1: for every recipe with at least one required ingredient, every
pantry presence set and every substitute map, the missing list of scoreRecipe
is exactly the required ingredients whose id is not in the pantry set and none
of whose listed substitutes is in the pantry set, each recorded with that
id, quantity and unit of that ingredient and an empty name, in recipe-ingredient
order; optional ingredients never appear. -/
theorem scoreRecipe_missing_exact (recipe : Recipe) (pantrySet : String → Bool)
    (subsMap : String → List IngredientSubstitute) (maxMissing : Int)
    (h : requiredOf recipe ≠ []) :
    (scoreRecipe recipe pantrySet subsMap maxMissing).missingIngredients =
      ((requiredOf recipe).filter fun ing =>
          !pantrySet ing.ingredientID &&
            !(subsMap ing.ingredientID).any fun sub => pantrySet sub.substituteID).map
        fun ing =>
          { ingredientID := ing.ingredientID, name := "", quantity := ing.quantity,
            unit := ing.unit } := by
  have hne : (requiredOf recipe).isEmpty = false := by
    simpa [List.isEmpty_iff] using h
  unfold scoreRecipe
  simp only [hne, Bool.false_eq_true, if_false, scoreRequired_eq]
  simp [not_ingCovered_eq, mkMissing]

/-- Claim C1 witness at the bread fixture. -/
theorem scoreRecipe_missing_exact_w :
    requiredOf wRecipe ≠ [] ∧
    (scoreRecipe wRecipe wPantrySet wSubsMap 0).missingIngredients =
      ((requiredOf wRecipe).filter fun ing =>
          !wPantrySet ing.ingredientID &&
            !(wSubsMap ing.ingredientID).any fun sub => wPantrySet sub.substituteID).map
        fun ing =>
          { ingredientID := ing.ingredientID, name := "", quantity := ing.quantity,
            unit := ing.unit } :=
  ⟨by decide, scoreRecipe_missing_exact wRecipe wPantrySet wSubsMap 0 (by decide)⟩

/-- Claim C2: coveragePct equals 100 * matchedRequiredCount /
totalRequiredCount when the recipe has required ingredients (arithmetic taken
exactly, in the rationals), and exactly 100 when it has none. -/
theorem scoreRecipe_coverage (recipe : Recipe) (pantrySet : String → Bool)
    (subsMap : String → List IngredientSubstitute) (maxMissing : Int) :
    (scoreRecipe recipe pantrySet subsMap maxMissing).coveragePct =
      if (requiredOf recipe).length = 0 then 100
      else
        100 *
          (((requiredOf recipe).filter fun ing =>
              pantrySet ing.ingredientID ||
                (subsMap ing.ingredientID).any fun sub =>
                  pantrySet sub.substituteID).length : ℚ) /
          ((requiredOf recipe).length : ℚ) := by
  by_cases h : (requiredOf recipe).isEmpty
  · have hnil : requiredOf recipe = [] := List.isEmpty_iff.mp h
    unfold scoreRecipe
    simp [hnil]
  · have hlen : (requiredOf recipe).length ≠ 0 := by
      simpa [List.isEmpty_iff, ← List.length_eq_zero] using h
    have hne : (requiredOf recipe).isEmpty = false := Bool.eq_false_iff.mpr h
    unfold scoreRecipe
    simp only [hne, Bool.false_eq_true, if_false, scoreRequired_eq, if_neg hlen]
    have hpred : ∀ ing, ingCovered pantrySet subsMap ing =
        (pantrySet ing.ingredientID ||
          (subsMap ing.ingredientID).any fun sub => pantrySet sub.substituteID) :=
      ingCovered_eq pantrySet subsMap
    simp only [← hpred]
    ring

/-- Claim C5: a recipe all of whose ingredients are optional (or that has no
ingredients) scores coverage 100, no missing ingredients, and canMake true,
for every pantry set, substitute map, and maxMissing. -/
theorem scoreRecipe_allOptional (recipe : Recipe) (pantrySet : String → Bool)
    (subsMap : String → List IngredientSubstitute) (maxMissing : Int)
    (h : recipe.ingredients.all (fun ing => ing.isOptional) = true) :
    (scoreRecipe recipe pantrySet subsMap maxMissing).coveragePct = 100 ∧
    (scoreRecipe recipe pantrySet subsMap maxMissing).missingIngredients = [] ∧
    (scoreRecipe recipe pantrySet subsMap maxMissing).canMake = true := by
  have hreq : requiredOf recipe = [] := by
    rw [requiredOf, List.filter_eq_nil_iff]
    intro ing hing
    simp [List.all_eq_true.mp h ing hing]
  unfold scoreRecipe
  simp [hreq]

/-- Claim C5 witness at the all-optional fixture, with a negative maxMissing. -/
theorem scoreRecipe_allOptional_w :
    wRecipeOpt.ingredients.all (fun ing => ing.isOptional) = true ∧
    ((scoreRecipe wRecipeOpt wPantrySet wSubsMap (-3)).coveragePct = 100 ∧
      (scoreRecipe wRecipeOpt wPantrySet wSubsMap (-3)).missingIngredients = [] ∧
      (scoreRecipe wRecipeOpt wPantrySet wSubsMap (-3)).canMake = true) :=
  ⟨by decide, scoreRecipe_allOptional wRecipeOpt wPantrySet wSubsMap (-3) (by decide)⟩

/-- Claim C6: for every non-negative maxMissing, canMake holds exactly when
the number of missing ingredients is at most maxMissing. -/
theorem scoreRecipe_canMake_iff (recipe : Recipe) (pantrySet : String → Bool)
    (subsMap : String → List IngredientSubstitute) (maxMissing : Int)
    (h : 0 ≤ maxMissing) :
    ((scoreRecipe recipe pantrySet subsMap maxMissing).canMake = true ↔
      (((scoreRecipe recipe pantrySet subsMap maxMissing).missingIngredients.length : Int)
        ≤ maxMissing)) := by
  by_cases hreq : (requiredOf recipe).isEmpty
  · unfold scoreRecipe
    simpa [hreq] using h
  · have hne : (requiredOf recipe).isEmpty = false := Bool.eq_false_iff.mpr hreq
    unfold scoreRecipe
    simp [hne]

/-- Claim C6 witness at the bread fixture with maxMissing 1. -/
theorem scoreRecipe_canMake_iff_w :
    (0 : Int) ≤ 1 ∧
    ((scoreRecipe wRecipe wPantrySet wSubsMap 1).canMake = true ↔
      (((scoreRecipe wRecipe wPantrySet wSubsMap 1).missingIngredients.length : Int) ≤ 1)) :=
  ⟨by decide, scoreRecipe_canMake_iff wRecipe wPantrySet wSubsMap 1 (by decide)⟩

/-- Claim C4: when a required ingredient X is absent from the pantry but some
substitute in the supplied map for X is present, X never appears in the
missing list and every required occurrence of X is counted as matched; the
ratio and notes fields never affect the outcome, and once a first substitute
matches, the substitutes after it are never consulted. -/
theorem scoreRecipe_substitution (recipe : Recipe) (pantrySet : String → Bool)
    (subsMap : String → List IngredientSubstitute) (maxMissing : Int) (X : String)
    (f : IngredientSubstitute → ℚ) (g : IngredientSubstitute → String)
    (sub : IngredientSubstitute) (rest rest' : List IngredientSubstitute)
    (hX : pantrySet X = false)
    (hS : ((subsMap X).any fun s => pantrySet s.substituteID) = true)
    (hsub : pantrySet sub.substituteID = true) :
    ((scoreRecipe recipe pantrySet subsMap maxMissing).missingIngredients.all
        fun m => m.ingredientID != X) = true ∧
    (((requiredOf recipe).filter fun ing => ing.ingredientID == X).all
        (ingCovered pantrySet subsMap)) = true ∧
    (scoreRequired pantrySet subsMap (requiredOf recipe)).1 =
      ((requiredOf recipe).filter (ingCovered pantrySet subsMap)).length ∧
    scoreRecipe recipe pantrySet
        (fun id => (subsMap id).map fun s => { s with ratio := f s, notes := g s })
        maxMissing =
      scoreRecipe recipe pantrySet subsMap maxMissing ∧
    scoreRecipe recipe pantrySet
        (fun id => if id = X then sub :: rest else subsMap id) maxMissing =
      scoreRecipe recipe pantrySet
        (fun id => if id = X then sub :: rest' else subsMap id) maxMissing := by
  have hcovX : ∀ ing : RecipeIngredient, ing.ingredientID = X →
      ingCovered pantrySet subsMap ing = true := by
    intro ing hid
    rw [ingCovered_eq, hid, hX]
    simpa using hS
  refine ⟨?_, ?_, ?_, ?_, ?_⟩
  · by_cases hreq : (requiredOf recipe).isEmpty
    · simp only [scoreRecipe, hreq]
      simp
    · have hne : (requiredOf recipe).isEmpty = false := Bool.eq_false_iff.mpr hreq
      simp only [scoreRecipe, hne, Bool.false_eq_true, if_false, scoreRequired_eq]
      rw [List.all_eq_true]
      intro m hm
      obtain ⟨ing, hing, rfl⟩ := List.mem_map.mp hm
      have hiu := (List.mem_filter.mp hing).2
      simp only [mkMissing, bne_iff_ne, ne_eq]
      intro hid
      rw [hcovX ing hid] at hiu
      simp at hiu
  · rw [List.all_eq_true]
    intro ing hing
    exact hcovX ing (by simpa using (List.mem_filter.mp hing).2)
  · rw [scoreRequired_eq]
  · apply scoreRecipe_congr
    intro id
    simp only [subMatch_eq_any, List.any_map]
    rfl
  · apply scoreRecipe_congr
    intro id
    by_cases hid : id = X
    · simp [hid, subMatch, hsub]
    · simp [hid]

/-- Claim C4 witness: yeast is covered by its water substitute at the bread
fixture, with concrete ratio/notes rewrites and scan tails. -/
theorem scoreRecipe_substitution_w :
    wPantrySet "yeast" = false ∧
    ((wSubsMap "yeast").any fun s => wPantrySet s.substituteID) = true ∧
    wPantrySet wSub.substituteID = true ∧
    (((scoreRecipe wRecipe wPantrySet wSubsMap 0).missingIngredients.all
        fun m => m.ingredientID != "yeast") = true ∧
      (((requiredOf wRecipe).filter fun ing => ing.ingredientID == "yeast").all
          (ingCovered wPantrySet wSubsMap)) = true ∧
      (scoreRequired wPantrySet wSubsMap (requiredOf wRecipe)).1 =
        ((requiredOf wRecipe).filter (ingCovered wPantrySet wSubsMap)).length ∧
      scoreRecipe wRecipe wPantrySet
          (fun id => (wSubsMap id).map fun s => { s with ratio := 0, notes := "" }) 0 =
        scoreRecipe wRecipe wPantrySet wSubsMap 0 ∧
      scoreRecipe wRecipe wPantrySet
          (fun id => if id = "yeast" then wSub :: [] else wSubsMap id) 0 =
        scoreRecipe wRecipe wPantrySet
          (fun id => if id = "yeast" then wSub :: [wSub] else wSubsMap id) 0) :=
  ⟨by decide, by decide, by decide,
    scoreRecipe_substitution wRecipe wPantrySet wSubsMap 0 "yeast"
      (fun _ => 0) (fun _ => "") wSub [] [wSub] (by decide) (by decide) (by decide)⟩

/-- The sort comparison used by Score, read as a non-strict order: a may come
before b when a has strictly higher coverage, or equal coverage and at most as
many missing ingredients. -/
lemma resultLe_iff (a b : MatchResult) :
    (!resultLess b a) = true ↔
      (b.coveragePct < a.coveragePct ∨
        (a.coveragePct = b.coveragePct ∧
          a.missingIngredients.length ≤ b.missingIngredients.length)) := by
  by_cases h : b.coveragePct = a.coveragePct
  · simp [resultLess, h, not_lt]
  · have h' : ¬a.coveragePct = b.coveragePct := fun he => h he.symm
    simp only [resultLess, if_pos h, Bool.not_eq_true', decide_eq_false_iff_not, not_lt]
    constructor
    · intro hle
      exact Or.inl (lt_of_le_of_ne hle h)
    · rintro (hlt | ⟨he, _⟩)
      · exact le_of_lt hlt
      · exact absurd he h'

/-- The sort comparison is transitive. -/
lemma resultLe_trans (a b c : MatchResult) (h1 : (!resultLess b a) = true)
    (h2 : (!resultLess c b) = true) : (!resultLess c a) = true := by
  rw [resultLe_iff] at h1 h2 ⊢
  rcases h1 with h1 | ⟨h1e, h1l⟩ <;> rcases h2 with h2 | ⟨h2e, h2l⟩
  · exact Or.inl (lt_trans h2 h1)
  · exact Or.inl (h2e ▸ h1)
  · exact Or.inl (h1e ▸ h2)
  · exact Or.inr ⟨h1e.trans h2e, le_trans h1l h2l⟩

/-- The sort comparison is total. -/
lemma resultLe_total (a b : MatchResult) :
    ((!resultLess b a) || (!resultLess a b)) = true := by
  rw [Bool.or_eq_true, resultLe_iff, resultLe_iff]
  rcases lt_trichotomy a.coveragePct b.coveragePct with h | h | h
  · exact Or.inr (Or.inl h)
  · rcases Nat.le_total a.missingIngredients.length b.missingIngredients.length with
      hl | hl
    · exact Or.inl (Or.inr ⟨h, hl⟩)
    · exact Or.inr (Or.inr ⟨h.symm, hl⟩)
  · exact Or.inl (Or.inl h)

/-- Claim C3: the rank-and-filter stage returns exactly the makeable input
results (as a permutation of the canMake filter of the input), and any result
placed before another has strictly higher coverage, or equal coverage and at
most as many missing ingredients. -/
theorem rankAndFilter_spec (results : List MatchResult) :
    (rankAndFilter results).Perm (results.filter fun r => r.canMake) ∧
    (rankAndFilter results).Pairwise (fun a b =>
      b.coveragePct < a.coveragePct ∨
        (a.coveragePct = b.coveragePct ∧
          a.missingIngredients.length ≤ b.missingIngredients.length)) := by
  constructor
  · have h1 : (rankResults results).Perm results :=
      List.perm_insertionSort _ results
    exact h1.filter _
  · haveI : IsTrans MatchResult (fun a b => (!resultLess b a) = true) :=
      ⟨fun a b c => resultLe_trans a b c⟩
    haveI : IsTotal MatchResult (fun a b => (!resultLess b a) = true) :=
      ⟨fun a b => by simpa [Bool.or_eq_true] using resultLe_total a b⟩
    have hs :=
      List.sorted_insertionSort (fun a b => (!resultLess b a) = true) results
    have hsub : (rankAndFilter results).Sublist (rankResults results) :=
      List.filter_sublist _
    exact (List.Pairwise.sublist hsub hs).imp fun {a b} hab => (resultLe_iff a b).mp hab

/-- Claim C9: resolveNames only ever writes the name field: the result list
keeps its order and length, every result keeps its recipe, coverage, canMake
and the order, ids, quantities and units of its missing ingredients, and a
name of a record becomes the fetched name when the lookup succeeds and is kept
unchanged when the lookup fails or reports absent. -/
theorem resolveNames_frame (nameFetch : String → Except String (Option IngredientDetail))
    (results : List MatchResult) :
    List.Forall₂ (fun r r' =>
      r'.recipe = r.recipe ∧ r'.coveragePct = r.coveragePct ∧
      r'.canMake = r.canMake ∧
      List.Forall₂ (fun m m' =>
        m'.ingredientID = m.ingredientID ∧ m'.quantity = m.quantity ∧
        m'.unit = m.unit ∧
        m'.name = (match lookupName nameFetch m.ingredientID with
          | some nm => nm
          | none => m.name))
        r.missingIngredients r'.missingIngredients)
      results (resolveNames nameFetch results) := by
  by_cases hall : results.all (fun r => r.missingIngredients.isEmpty) = true
  · rw [resolveNames, if_pos hall, List.forall₂_same]
    intro r hr
    have hempty : r.missingIngredients = [] := by
      simpa [List.isEmpty_iff] using List.all_eq_true.mp hall r hr
    exact ⟨rfl, rfl, rfl, by rw [hempty]; exact List.Forall₂.nil⟩
  · rw [resolveNames, if_neg hall, List.forall₂_map_right_iff, List.forall₂_same]
    intro r hr
    refine ⟨rfl, rfl, rfl, ?_⟩
    rw [List.forall₂_map_right_iff, List.forall₂_same]
    intro m hm
    unfold applyName
    cases h : lookupName nameFetch m.ingredientID <;> simp [h]

/-- Claim C9 witness at the one-result fixture with a partly failing fetch. -/
theorem resolveNames_frame_w :
    List.Forall₂ (fun r r' =>
      r'.recipe = r.recipe ∧ r'.coveragePct = r.coveragePct ∧
      r'.canMake = r.canMake ∧
      List.Forall₂ (fun m m' =>
        m'.ingredientID = m.ingredientID ∧ m'.quantity = m.quantity ∧
        m'.unit = m.unit ∧
        m'.name = (match lookupName wNameFetch2 m.ingredientID with
          | some nm => nm
          | none => m.name))
        r.missingIngredients r'.missingIngredients)
      wResults (resolveNames wNameFetch2 wResults) :=
  resolveNames_frame wNameFetch2 wResults

/-- Claim C7: Score fails exactly when the pantry fetch or the recipe fetch
fails, wrapping that error and returning no result list; when both succeed it
returns ok for every substitute and name fetch behaviour, so dictionary
failures never surface as request errors. -/
theorem Score_error_spec (items : List PantryItem) (recipes : List Recipe)
    (recipesRes : Except String (List Recipe))
    (subsFetch : String → Except String (Option (List IngredientSubstitute)))
    (nameFetch : String → Except String (Option IngredientDetail))
    (allowSubs : Bool) (maxMissing : Int) (e e' : String) :
    Score (.error e) recipesRes subsFetch nameFetch allowSubs maxMissing =
      .error ("fetch pantry: " ++ e) ∧
    Score (.ok items) (.error e') subsFetch nameFetch allowSubs maxMissing =
      .error ("fetch recipes: " ++ e') ∧
    (Score (.ok items) (.ok recipes) subsFetch nameFetch allowSubs maxMissing).isOk
      = true :=
  ⟨rfl, rfl, rfl⟩

/-- Claim C10: the pantry presence set depends on ingredient ids only — any
rewrite of quantities leaves it unchanged, and membership is existence of a
pantry item with that id — and duplicate required occurrences are scored
independently: missing entries for an id are counted per uncovered occurrence,
and coverage is computed from occurrence counts, each missing occurrence
lowering it by its full share. -/
theorem pantry_id_only_and_duplicates (items : List PantryItem)
    (q : PantryItem → ℚ) (id : String) (recipe : Recipe)
    (pantrySet : String → Bool) (subsMap : String → List IngredientSubstitute)
    (maxMissing : Int) (X : String) (h : requiredOf recipe ≠ []) :
    buildPantrySet (items.map fun item => { item with quantity := q item }) id =
      buildPantrySet items id ∧
    (buildPantrySet items id = true ↔ ∃ item ∈ items, item.ingredientID = id) ∧
    (scoreRecipe recipe pantrySet subsMap maxMissing).missingIngredients.countP
        (fun m => m.ingredientID == X) =
      (requiredOf recipe).countP
        (fun ing => ing.ingredientID == X && !ingCovered pantrySet subsMap ing) ∧
    (scoreRecipe recipe pantrySet subsMap maxMissing).coveragePct =
      100 * (((requiredOf recipe).length : ℚ) -
          ((scoreRecipe recipe pantrySet subsMap maxMissing).missingIngredients.length : ℚ)) /
        ((requiredOf recipe).length : ℚ) := by
  have hne : (requiredOf recipe).isEmpty = false := by
    simpa [List.isEmpty_iff] using h
  have hlen : ((requiredOf recipe).length : ℚ) ≠ 0 := by
    simp only [ne_eq, Nat.cast_eq_zero, List.length_eq_zero]
    exact h
  refine ⟨?_, ?_, ?_, ?_⟩
  · rw [buildPantrySet_eq_any, buildPantrySet_eq_any, List.any_map]
    rfl
  · rw [buildPantrySet_eq_any, List.any_eq_true]
    simp
  · simp only [scoreRecipe, hne, Bool.false_eq_true, if_false, scoreRequired_eq]
    rw [List.countP_map, List.countP_filter]
    rfl
  · simp only [scoreRecipe, hne, Bool.false_eq_true, if_false, scoreRequired_eq]
    have hsplit :
        ((requiredOf recipe).filter (ingCovered pantrySet subsMap)).length +
          ((requiredOf recipe).filter
            (fun ing => !ingCovered pantrySet subsMap ing)).length =
          (requiredOf recipe).length :=
      (List.length_eq_length_filter_add (ingCovered pantrySet subsMap)).symm
    have hcast :
        (((requiredOf recipe).filter (ingCovered pantrySet subsMap)).length : ℚ) =
          ((requiredOf recipe).length : ℚ) -
            ((((requiredOf recipe).filter
              (fun ing => !ingCovered pantrySet subsMap ing)).map mkMissing).length : ℚ) := by
      rw [List.length_map]
      rw [← hsplit]
      push_cast
      ring
    rw [hcast]
    ring

/-- Claim C10 witness: bread fixture with a quantity rewrite to -5 and the
yeast id. -/
theorem pantry_id_only_and_duplicates_w :
    requiredOf wRecipe ≠ [] ∧
    (buildPantrySet (wPantry.map fun item => { item with quantity := -5 }) "water" =
        buildPantrySet wPantry "water" ∧
      (buildPantrySet wPantry "water" = true ↔
        ∃ item ∈ wPantry, item.ingredientID = "water") ∧
      (scoreRecipe wRecipe wPantrySet wSubsMap 0).missingIngredients.countP
          (fun m => m.ingredientID == "yeast") =
        (requiredOf wRecipe).countP
          (fun ing => ing.ingredientID == "yeast" &&
            !ingCovered wPantrySet wSubsMap ing) ∧
      (scoreRecipe wRecipe wPantrySet wSubsMap 0).coveragePct =
        100 * (((requiredOf wRecipe).length : ℚ) -
            ((scoreRecipe wRecipe wPantrySet wSubsMap 0).missingIngredients.length : ℚ)) /
          ((requiredOf wRecipe).length : ℚ)) :=
  ⟨by decide,
    pantry_id_only_and_duplicates wPantry (fun _ => -5) "water" wRecipe wPantrySet
      wSubsMap 0 "yeast" (by decide)⟩

/-- Claim C8 counterexample: Score applies no internal clamp — with the same
pantry and catalog, maxMissing -1 and maxMissing 0 give different results (a
fully covered recipe is dropped at -1). -/
theorem Score_negative_maxMissing_differs :
    Score (.ok cPantry) (.ok cRecipes) wSubsFetch wNameFetch false (-1) ≠
      Score (.ok cPantry) (.ok cRecipes) wSubsFetch wNameFetch false 0 := by
  intro he
  have h1 : Score (.ok cPantry) (.ok cRecipes) wSubsFetch wNameFetch false (-1) =
      .ok [] := by decide
  have h2 : (Score (.ok cPantry) (.ok cRecipes) wSubsFetch wNameFetch false 0).map
      List.length = .ok 1 := by decide
  rw [← he, h1] at h2
  simp [Except.map] at h2

/-- Claim C8 amended: the clamp lives in the HTTP boundary, not in Score: the
POST handler raises negative tolerances to 0, the GET handler rejects them,
and every tolerance either handler passes on is non-negative. -/
theorem handlers_clamp_maxMissing :
    (∀ n : Int, n < 0 → postQueryMaxMissing n = 0) ∧
    (∀ n : Int, 0 ≤ postQueryMaxMissing n) ∧
    (∀ n : Int, n < 0 →
      getMatchesMaxMissing (some n) =
        .error "max_missing must be a non-negative integer") ∧
    (∀ o : Option Int, ∀ n : Int, getMatchesMaxMissing o = .ok n → 0 ≤ n) := by
  refine ⟨?_, ?_, ?_, ?_⟩
  · intro n hn
    simp [postQueryMaxMissing, hn]
  · intro n
    unfold postQueryMaxMissing
    split <;> omega
  · intro n hn
    simp [getMatchesMaxMissing, hn]
  · rintro (_ | n) m hm
    · simp only [getMatchesMaxMissing, Except.ok.injEq] at hm
      omega
    · by_cases hn : n < 0
      · simp [getMatchesMaxMissing, hn] at hm
      · simp only [getMatchesMaxMissing, if_neg hn, Except.ok.injEq] at hm
        omega

/-- Claim C8 amended witness: the POST handler clamps -7 to 0 and the GET
handler rejects -7 and passes 4 through non-negative. -/
theorem handlers_clamp_maxMissing_w :
    postQueryMaxMissing (-7) = 0 ∧ 0 ≤ postQueryMaxMissing (-7) ∧
    getMatchesMaxMissing (some (-7)) =
      .error "max_missing must be a non-negative integer" ∧
    (0 : Int) ≤ 4 :=
  ⟨handlers_clamp_maxMissing.1 (-7) (by decide),
    handlers_clamp_maxMissing.2.1 (-7),
    handlers_clamp_maxMissing.2.2.1 (-7) (by decide),
    handlers_clamp_maxMissing.2.2.2 (some 4) 4 (by decide)⟩

end WoodPantry
